import Mathlib

/-!
Shallow embedding of the Express assignment-tracker web application
(`app.js` of the inventory-webapp first-deployment tutorial).

The data model is the `assignments` and `subjects` tables; the operations
are the HTTP route handlers of `app.js`, each of which (after the
`requiresAuth` gate) hands one fixed parameterized SQL string plus a
parameter list to the pooled query executor and maps the outcome to an
HTTP response.  The query executor is external (MySQL via `mysql2`), so
its success/failure is an adversarial input `DbOutcome`; on success the
effect of each fixed SQL statement on the table state is embedded as a
pure function on `Database`, translated statement-by-statement from the
SQL text in `app.js`.
-/

/-- A row of the `assignments` table.  Form-supplied values (`title`,
`priority`, `dueDate`) are kept as the submitted strings; `dueDate` is
stored in the canonical `%Y-%m-%d` form that the HTML date input submits.
`description` is `none` when the column is NULL.  `userId` holds the
OIDC subject claim of the owner. -/
structure AssignmentRow where
  assignmentId : Nat
  title : String
  priority : String
  subjectId : Nat
  dueDate : String
  description : Option String
  userId : String
  deriving DecidableEq

/-- A row of the `subjects` table. -/
structure Subject where
  subjectId : Nat
  subjectName : String
  deriving DecidableEq

/-- The database state: the two tables and the AUTO_INCREMENT counter of
`assignments.assignmentId`. -/
structure Database where
  assignments : List AssignmentRow
  subjects : List Subject
  nextAssignmentId : Nat
  deriving DecidableEq

/-- An URL-encoded POST body as the routes of `app.js` read it:
`req.body.title`, `req.body.priority`, `req.body.subject`,
`req.body.dueDate`, `req.body.description` (the last absent on the
create form, hence optional). -/
structure Body where
  title : String
  priority : String
  subject : Nat
  dueDate : String
  description : Option String
  deriving DecidableEq

/-- MySQL `DATE_FORMAT(dueDate, "%Y-%m-%d")` (external builtin): a DATE
column stored from a `%Y-%m-%d` string renders back to that same string,
so on our canonical-form dates this is the identity. -/
def dateFormatYMD (d : String) : String := d

/-- MySQL `DATE_FORMAT(dueDate, "%m/%d/%Y (%W)")` (external builtin),
modelled abstractly as an injective re-rendering tagged by the format. -/
def dateFormatListStyle (d : String) : String := "%m/%d/%Y (%W) of " ++ d

/-- MySQL `DATE_FORMAT(dueDate, "%W, %M %D %Y")` (external builtin),
modelled abstractly as an injective re-rendering tagged by the format. -/
def dateFormatExtended (d : String) : String := "%W, %M %D %Y of " ++ d

/-- One result row of `read_assignments_all_sql`, as passed to the
`assignments` view inside `hwlist`. -/
structure ListRow where
  assignmentId : Nat
  title : String
  priority : String
  subjectName : String
  subjectId : Nat
  dueDateFormatted : String
  deriving DecidableEq

/-- One result row of `read_assignment_detail_sql`, as passed to the
`detail` view as `hw`. -/
structure DetailRow where
  assignmentId : Nat
  title : String
  priority : String
  subjectName : String
  subjectId : Nat
  dueDateExtended : String
  dueDateYMD : String
  description : Option String
  deriving DecidableEq

/-- The SELECT clause of `read_assignments_all_sql` applied to one joined
pair of an assignment row and its subject row. -/
def listRowOf (s : Subject) (r : AssignmentRow) : ListRow :=
  ⟨r.assignmentId, r.title, r.priority, s.subjectName, r.subjectId,
   dateFormatListStyle r.dueDate⟩

/-- The SELECT clause of `read_assignment_detail_sql` applied to one
joined pair of an assignment row and its subject row. -/
def detailRowOf (s : Subject) (r : AssignmentRow) : DetailRow :=
  ⟨r.assignmentId, r.title, r.priority, s.subjectName, r.subjectId,
   dateFormatExtended r.dueDate, dateFormatYMD r.dueDate, r.description⟩

/-- The subject rows matching one assignment row under
`ON assignments.subjectId = subjects.subjectId`, paired with it. -/
def pairsFor (subs : List Subject) (r : AssignmentRow) : List (AssignmentRow × Subject) :=
  (subs.filter (fun s => s.subjectId == r.subjectId)).map (fun s => (r, s))

/-- The inner `JOIN subjects ON assignments.subjectId = subjects.subjectId`
shared by the two read queries: one output pair per matching combination
of an assignment row and a subject row, in table order. -/
def joinPairs (db : Database) : List (AssignmentRow × Subject) :=
  db.assignments.flatMap (pairsFor db.subjects)

/-- The ORDER BY relation of `read_assignments_all_sql`:
`ORDER BY assignments.assignmentId DESC`. -/
def hwOrder (x y : ListRow) : Prop := y.assignmentId ≤ x.assignmentId

instance : DecidableRel hwOrder := fun x y => Nat.decLe y.assignmentId x.assignmentId

/-- Result set of `read_assignments_all_sql` with parameter `sub` bound to
the `?` of `WHERE assignments.userId = ?`. -/
def read_assignments_all (db : Database) (sub : String) : List ListRow :=
  List.insertionSort hwOrder
    (((joinPairs db).filter (fun p => p.1.userId == sub)).map (fun p => listRowOf p.2 p.1))

/-- Result set of `read_assignment_detail_sql` with parameters `id` and
`sub` bound to the `?`s of `WHERE assignmentId = ? AND assignments.userId = ?`. -/
def read_assignment_detail (db : Database) (id : Nat) (sub : String) : List DetailRow :=
  ((joinPairs db).filter (fun p => p.1.assignmentId == id && p.1.userId == sub)).map
    (fun p => detailRowOf p.2 p.1)

/-- Effect of `delete_assignment_sql` on the database, with parameters
`id` and `sub` bound to the `?`s of `WHERE assignmentId = ? AND userId = ?`. -/
def delete_assignment (db : Database) (id : Nat) (sub : String) : Database :=
  { db with assignments :=
      db.assignments.filter (fun r => !(r.assignmentId == id && r.userId == sub)) }

/-- The row inserted by `create_assignment_sql`: only `title`, `priority`,
`subjectId`, `dueDate`, `userId` are in the column list, so `description`
is NULL and `assignmentId` is the AUTO_INCREMENT value. -/
def newAssignment (db : Database) (body : Body) (sub : String) : AssignmentRow :=
  ⟨db.nextAssignmentId, body.title, body.priority, body.subject, body.dueDate, none, sub⟩

/-- Effect of `create_assignment_sql` on the database: the new row is
appended and the AUTO_INCREMENT counter advances; `results.insertId` of
the callback is the pre-state `nextAssignmentId`. -/
def create_assignment (db : Database) (body : Body) (sub : String) : Database :=
  ⟨db.assignments ++ [newAssignment db body sub], db.subjects, db.nextAssignmentId + 1⟩

/-- The SET clause of `update_assignment_sql` applied to one matched row. -/
def applyUpdate (body : Body) (r : AssignmentRow) : AssignmentRow :=
  { r with title := body.title, priority := body.priority, subjectId := body.subject,
           dueDate := body.dueDate, description := body.description }

/-- Effect of `update_assignment_sql` on the database, with the last two
parameters bound to the `?`s of `WHERE assignmentId = ? AND userId = ?`. -/
def update_assignment (db : Database) (id : Nat) (sub : String) (body : Body) : Database :=
  { db with assignments := db.assignments.map (fun r =>
      if r.assignmentId == id && r.userId == sub then applyUpdate body r else r) }

/-- SQL text of the assignment list query, verbatim from `app.js`. -/
def read_assignments_all_sql : String :=
  "\n    SELECT \n        assignmentId, title, priority, subjectName, \n        assignments.subjectId as subjectId,\n        DATE_FORMAT(dueDate, \"%m/%d/%Y (%W)\") AS dueDateFormatted\n    FROM assignments\n    JOIN subjects\n        ON assignments.subjectId = subjects.subjectId\n    WHERE assignments.userId = ?\n    ORDER BY assignments.assignmentId DESC\n"

/-- SQL text of the assignment detail query, verbatim from `app.js`. -/
def read_assignment_detail_sql : String :=
  "\n    SELECT\n        assignmentId, title, priority, subjectName,\n        assignments.subjectId as subjectId,\n        DATE_FORMAT(dueDate, \"%W, %M %D %Y\") AS dueDateExtended, \n        DATE_FORMAT(dueDate, \"%Y-%m-%d\") AS dueDateYMD, \n        description\n    FROM assignments\n    JOIN subjects\n        ON assignments.subjectId = subjects.subjectId\n    WHERE assignmentId = ?\n    AND assignments.userId = ?\n"

/-- SQL text of the assignment delete statement, verbatim from `app.js`. -/
def delete_assignment_sql : String :=
  "\n    DELETE \n    FROM\n        assignments\n    WHERE\n        assignmentId = ?\n    AND userId = ?\n"

/-- SQL text of the assignment create statement, verbatim from `app.js`. -/
def create_assignment_sql : String :=
  "\n    INSERT INTO assignments \n        (title, priority, subjectId, dueDate, userId) \n    VALUES \n        (?, ?, ?, ?, ?);\n"

/-- SQL text of the assignment update statement, verbatim from `app.js`. -/
def update_assignment_sql : String :=
  "\n    UPDATE\n        assignments\n    SET\n        title = ?,\n        priority = ?,\n        subjectId = ?,\n        dueDate = ?,\n        description = ?\n    WHERE\n        assignmentId = ?\n    AND userId = ?\n"

/-- A value bound to a `?` placeholder of a parameterized query. -/
inductive SqlValue where
  | str (s : String)
  | num (n : Nat)
  | null
  deriving DecidableEq

/-- `req.body.description` as a bound parameter: NULL when absent. -/
def SqlValue.ofOptStr : Option String → SqlValue
  | none => SqlValue.null
  | some s => SqlValue.str s

/-- One invocation of `db.execute(sqlText, params, callback)`: the SQL
string and the bound parameter list handed to the pooled query executor. -/
structure QueryCall where
  sqlText : String
  params : List SqlValue
  deriving DecidableEq

/-- Whether the external database reports an error to the callback.  On
`error e` the statement has no effect and `results` is unavailable. -/
inductive DbOutcome where
  | ok
  | error (e : String)
  deriving DecidableEq

/-- The data a rendered EJS view receives (templating itself is out of
scope): `index` gets nothing, `assignments` gets `hwlist`, `detail` gets
`hw`. -/
inductive View where
  | index
  | assignments (hwlist : List ListRow)
  | detail (hw : DetailRow)
  deriving DecidableEq

/-- An HTTP response as issued by the handlers of `app.js`. -/
inductive Response where
  | redirect (loc : String)
  | render (v : View)
  | sendStatus (status : Nat) (body : String)
  | send (body : String)
  | sendUserJson (sub : String)
  deriving DecidableEq

/-- An incoming HTTP request to one of the routes `app.js` defines, with
path parameters and parsed body. -/
inductive Request where
  | getAuthtest
  | getProfile
  | getHome
  | getAssignments
  | getAssignmentDetail (id : Nat)
  | getAssignmentDelete (id : Nat)
  | postAssignments (body : Body)
  | postAssignmentUpdate (id : Nat) (body : Body)
  deriving DecidableEq

/-- What one request produces: the response sent, the database state after
the request, and the query calls handed to the executor on its behalf. -/
structure RouteResult where
  response : Response
  db : Database
  calls : List QueryCall
  deriving DecidableEq

/-- Modelled from the spec: the `requiresAuth()` middleware of
`express-openid-connect` (an external collaborator whose code is not in
the repository) rejects a request lacking a valid session identity with a
redirect to login, before the route handler runs. -/
def loginRedirect : Response := Response.redirect "/login"

/-- The 404 body of the detail route:
`` `No assignment found with id = "${req.params.id}"` ``. -/
def notFoundMsg (id : Nat) : String :=
  "No assignment found with id = \"" ++ toString id ++ "\""

/-- The request-handling layer of `app.js`: dispatch on route, apply the
`requiresAuth` gate where the source attaches it, run, for that route, the one
`db.execute` with its fixed SQL text and bound parameters, and map the
outcome to a response exactly as the handler callbacks do. -/
def handle (db : Database) (req : Request) (auth : Option String) (out : DbOutcome) :
    RouteResult :=
  match req, auth with
  | Request.getAuthtest, a =>
      ⟨Response.send (match a with | some _ => "Logged in" | none => "Logged out"), db, []⟩
  | Request.getProfile, none => ⟨loginRedirect, db, []⟩
  | Request.getProfile, some a => ⟨Response.sendUserJson a, db, []⟩
  | Request.getHome, _ => ⟨Response.render View.index, db, []⟩
  | Request.getAssignments, none => ⟨loginRedirect, db, []⟩
  | Request.getAssignments, some a =>
      let call : QueryCall := ⟨read_assignments_all_sql, [SqlValue.str a]⟩
      match out with
      | DbOutcome.error e => ⟨Response.sendStatus 500 e, db, [call]⟩
      | DbOutcome.ok =>
          ⟨Response.render (View.assignments (read_assignments_all db a)), db, [call]⟩
  | Request.getAssignmentDetail _, none => ⟨loginRedirect, db, []⟩
  | Request.getAssignmentDetail id, some a =>
      let call : QueryCall := ⟨read_assignment_detail_sql, [SqlValue.num id, SqlValue.str a]⟩
      match out with
      | DbOutcome.error e => ⟨Response.sendStatus 500 e, db, [call]⟩
      | DbOutcome.ok =>
          match read_assignment_detail db id a with
          | [] => ⟨Response.sendStatus 404 (notFoundMsg id), db, [call]⟩
          | hw :: _ => ⟨Response.render (View.detail hw), db, [call]⟩
  | Request.getAssignmentDelete _, none => ⟨loginRedirect, db, []⟩
  | Request.getAssignmentDelete id, some a =>
      let call : QueryCall := ⟨delete_assignment_sql, [SqlValue.num id, SqlValue.str a]⟩
      match out with
      | DbOutcome.error e => ⟨Response.sendStatus 500 e, db, [call]⟩
      | DbOutcome.ok => ⟨Response.redirect "/assignments", delete_assignment db id a, [call]⟩
  | Request.postAssignments _, none => ⟨loginRedirect, db, []⟩
  | Request.postAssignments body, some a =>
      let call : QueryCall := ⟨create_assignment_sql,
        [SqlValue.str body.title, SqlValue.str body.priority, SqlValue.num body.subject,
         SqlValue.str body.dueDate, SqlValue.str a]⟩
      match out with
      | DbOutcome.error e => ⟨Response.sendStatus 500 e, db, [call]⟩
      | DbOutcome.ok =>
          ⟨Response.redirect ("/assignments/" ++ toString db.nextAssignmentId),
           create_assignment db body a, [call]⟩
  | Request.postAssignmentUpdate _ _, none => ⟨loginRedirect, db, []⟩
  | Request.postAssignmentUpdate id body, some a =>
      let call : QueryCall := ⟨update_assignment_sql,
        [SqlValue.str body.title, SqlValue.str body.priority, SqlValue.num body.subject,
         SqlValue.str body.dueDate, SqlValue.ofOptStr body.description,
         SqlValue.num id, SqlValue.str a]⟩
      match out with
      | DbOutcome.error e => ⟨Response.sendStatus 500 e, db, [call]⟩
      | DbOutcome.ok =>
          ⟨Response.redirect ("/assignments/" ++ toString id), update_assignment db id a body,
           [call]⟩

/-- The five assignment CRUD routes plus `/profile` carry the
`requiresAuth()` gate in `app.js`; `/authtest` and `/` do not. -/
def isAuthGuarded : Request → Bool
  | Request.getAuthtest => false
  | Request.getHome => false
  | Request.getProfile => true
  | Request.getAssignments => true
  | Request.getAssignmentDetail _ => true
  | Request.getAssignmentDelete _ => true
  | Request.postAssignments _ => true
  | Request.postAssignmentUpdate _ _ => true

/-- The five assignment CRUD routes (the ones that touch the database). -/
def isCrudRoute : Request → Bool
  | Request.getAssignments => true
  | Request.getAssignmentDetail _ => true
  | Request.getAssignmentDelete _ => true
  | Request.postAssignments _ => true
  | Request.postAssignmentUpdate _ _ => true
  | _ => false

/-- The fixed SQL constant of each CRUD route, a function of the route
shape only (its value ignores path parameters, body and identity). -/
def routeSqlText : Request → Option String
  | Request.getAssignments => some read_assignments_all_sql
  | Request.getAssignmentDetail _ => some read_assignment_detail_sql
  | Request.getAssignmentDelete _ => some delete_assignment_sql
  | Request.postAssignments _ => some create_assignment_sql
  | Request.postAssignmentUpdate _ _ => some update_assignment_sql
  | _ => none

/-! ## Fixtures used by concrete witnesses and counterexamples -/

/-- A concrete subject row. -/
def exSubject : Subject := ⟨1, "Math"⟩

/-- A concrete assignment row owned by user `alice`. -/
def exRowAlice : AssignmentRow := ⟨1, "HW1", "3", 1, "2024-05-01", none, "alice"⟩

/-- A concrete assignment row owned by user `bob`. -/
def exRowBob : AssignmentRow := ⟨2, "HW2", "5", 1, "2024-05-02", none, "bob"⟩

/-- A concrete database state with one assignment each for two users. -/
def exDb : Database := ⟨[exRowAlice, exRowBob], [exSubject], 3⟩

/-- A concrete POST body carrying a description. -/
def exBody : Body := ⟨"Essay", "2", 1, "2024-06-01", some "my notes"⟩

/-! ## General lemmas about the embedded query semantics -/

theorem mem_pairsFor {subs : List Subject} {r : AssignmentRow} {p : AssignmentRow × Subject}
    (h : p ∈ pairsFor subs r) : p.1 = r ∧ p.2 ∈ subs ∧ p.2.subjectId = r.subjectId := by
  simp only [pairsFor, List.mem_map, List.mem_filter, beq_iff_eq] at h
  obtain ⟨s, ⟨hs, hid⟩, rfl⟩ := h
  exact ⟨rfl, hs, hid⟩

theorem fst_mem_of_mem_joinPairs {db : Database} {p : AssignmentRow × Subject}
    (h : p ∈ joinPairs db) : p.1 ∈ db.assignments := by
  simp only [joinPairs, List.mem_flatMap] at h
  obtain ⟨r, hr, hp⟩ := h
  obtain ⟨h1, -, -⟩ := mem_pairsFor hp
  exact h1 ▸ hr

theorem filter_pairsFor_of_true {subs : List Subject} {r : AssignmentRow}
    {q : AssignmentRow → Bool} (hq : q r = true) :
    (pairsFor subs r).filter (fun p => q p.1) = pairsFor subs r :=
  List.filter_eq_self.mpr (fun p hp => by rw [(mem_pairsFor hp).1]; exact hq)

theorem filter_pairsFor_of_false {subs : List Subject} {r : AssignmentRow}
    {q : AssignmentRow → Bool} (hq : q r = false) :
    (pairsFor subs r).filter (fun p => q p.1) = [] :=
  List.filter_eq_nil_iff.mpr (fun p hp => by simp [(mem_pairsFor hp).1, hq])

theorem filter_fst_flatMap (l : List AssignmentRow) (subs : List Subject)
    (q : AssignmentRow → Bool) :
    (l.flatMap (pairsFor subs)).filter (fun p => q p.1)
      = (l.filter q).flatMap (pairsFor subs) := by
  induction l with
  | nil => rfl
  | cons r t ih =>
      rw [List.flatMap_cons, List.filter_append, ih, List.filter_cons]
      cases hq : q r
      · rw [filter_pairsFor_of_false hq]
        simp
      · rw [filter_pairsFor_of_true hq]
        simp [List.flatMap_cons]

/-! ## Claim theorems -/

/-- C1 (counterexample): an unauthenticated request to the home route `/`
is served — the `index` view is rendered — rather than rejected with a
redirect to login, so it is not the case that every route of the
application rejects requests lacking a valid session identity. -/
theorem C1_counterexample :
    (handle exDb Request.getHome none DbOutcome.ok).response = Response.render View.index ∧
    (handle exDb Request.getHome none DbOutcome.ok).response ≠ loginRedirect := by
  exact ⟨rfl, by decide⟩

/-- C1 (amended): every route guarded by `requiresAuth` — the five
assignment CRUD routes and `/profile` — rejects a request lacking a valid
session identity with a redirect to login, leaves the database untouched,
and in particular hands no query to the executor on behalf of that
request; `/` and `/authtest` are the only unguarded routes. -/
theorem C1_amended (db : Database) (req : Request) (out : DbOutcome)
    (h : isAuthGuarded req = true) :
    (handle db req none out).response = loginRedirect ∧
    (handle db req none out).db = db ∧
    (handle db req none out).calls = [] := by
  cases req <;> simp_all [handle, isAuthGuarded]

/-- C1 (witness): the amended theorem applied to an unauthenticated list
request against the concrete fixture database. -/
theorem C1_amended_witness :
    isAuthGuarded Request.getAssignments = true ∧
    ((handle exDb Request.getAssignments none DbOutcome.ok).response = loginRedirect ∧
     (handle exDb Request.getAssignments none DbOutcome.ok).db = exDb ∧
     (handle exDb Request.getAssignments none DbOutcome.ok).calls = []) :=
  ⟨rfl, C1_amended exDb Request.getAssignments DbOutcome.ok rfl⟩

/-- C5: on every assignment CRUD route, a database error surfaces as HTTP
500 with the raw error as the body — the one response issued is neither a
rendered view nor a redirect — and the database state is unchanged. -/
theorem C5_db_error_500 (db : Database) (req : Request) (a e : String)
    (h : isCrudRoute req = true) :
    (handle db req (some a) (DbOutcome.error e)).response = Response.sendStatus 500 e ∧
    (handle db req (some a) (DbOutcome.error e)).db = db := by
  cases req <;> simp_all [handle, isCrudRoute]

/-- C5 (witness): the theorem applied to a concrete failing create
request against the fixture database. -/
theorem C5_db_error_500_witness :
    isCrudRoute (Request.postAssignments exBody) = true ∧
    ((handle exDb (Request.postAssignments exBody) (some "alice")
        (DbOutcome.error "ER_BAD_FIELD")).response
        = Response.sendStatus 500 "ER_BAD_FIELD" ∧
     (handle exDb (Request.postAssignments exBody) (some "alice")
        (DbOutcome.error "ER_BAD_FIELD")).db = exDb) :=
  ⟨rfl, C5_db_error_500 exDb (Request.postAssignments exBody) "alice" "ER_BAD_FIELD" rfl⟩

/-- C6: absent a database error, the detail route responds 404 — with a
message naming the requested id — exactly when the detail query returns an
empty result set for that id and the authenticated user. -/
theorem C6_detail_404_iff_empty (db : Database) (id : Nat) (a : String) :
    (handle db (Request.getAssignmentDetail id) (some a) DbOutcome.ok).response
        = Response.sendStatus 404 (notFoundMsg id)
      ↔ read_assignment_detail db id a = [] := by
  constructor
  · intro h
    cases hres : read_assignment_detail db id a with
    | nil => rfl
    | cons r l => simp [handle, hres] at h
  · intro h
    simp [handle, h]

/-- C9: the create statement inserts only title, priority, subjectId,
dueDate and userId, so every created row has a NULL description — the
created row is `newAssignment`, whose description is `none`, whatever the
submitted body — while the update statement is what sets the description
afterwards (`applyUpdate` writes the description of the body). -/
theorem C9_create_without_description (db : Database) (body : Body) (a : String) :
    (handle db (Request.postAssignments body) (some a) DbOutcome.ok).db.assignments
        = db.assignments ++ [newAssignment db body a] ∧
    (newAssignment db body a).description = none ∧
    (∀ body2 : Body, ∀ r : AssignmentRow,
      (applyUpdate body2 r).description = body2.description) :=
  ⟨rfl, rfl, fun _ _ => rfl⟩

/-- C10: absent a database error, delete and update never report a
missing record, whatever the id and the database contents: the delete
route always redirects to `/assignments` and the update route always
redirects to `/assignments/:id`. -/
theorem C10_delete_update_never_404 (db : Database) (id : Nat) (body : Body) (a : String) :
    (handle db (Request.getAssignmentDelete id) (some a) DbOutcome.ok).response
        = Response.redirect "/assignments" ∧
    (handle db (Request.postAssignmentUpdate id body) (some a) DbOutcome.ok).response
        = Response.redirect ("/assignments/" ++ toString id) :=
  ⟨rfl, rfl⟩

/-- C7: on each assignment CRUD route the executor receives exactly one
call whose SQL text is the fixed constant of that route — the same closed
string for every database state, identity, outcome, path parameter and
body — and the request-derived values appear only in the bound parameter
list of that call. -/
theorem C7_fixed_sql_parameterized (db : Database) (a : String) (out : DbOutcome)
    (id : Nat) (body : Body) :
    (handle db Request.getAssignments (some a) out).calls
        = [⟨read_assignments_all_sql, [SqlValue.str a]⟩] ∧
    (handle db (Request.getAssignmentDetail id) (some a) out).calls
        = [⟨read_assignment_detail_sql, [SqlValue.num id, SqlValue.str a]⟩] ∧
    (handle db (Request.getAssignmentDelete id) (some a) out).calls
        = [⟨delete_assignment_sql, [SqlValue.num id, SqlValue.str a]⟩] ∧
    (handle db (Request.postAssignments body) (some a) out).calls
        = [⟨create_assignment_sql,
            [SqlValue.str body.title, SqlValue.str body.priority, SqlValue.num body.subject,
             SqlValue.str body.dueDate, SqlValue.str a]⟩] ∧
    (handle db (Request.postAssignmentUpdate id body) (some a) out).calls
        = [⟨update_assignment_sql,
            [SqlValue.str body.title, SqlValue.str body.priority, SqlValue.num body.subject,
             SqlValue.str body.dueDate, SqlValue.ofOptStr body.description,
             SqlValue.num id, SqlValue.str a]⟩] := by
  cases out with
  | ok =>
      refine ⟨rfl, ?_, rfl, rfl, rfl⟩
      cases hres : read_assignment_detail db id a <;> simp [handle, hres]
  | error e => exact ⟨rfl, rfl, rfl, rfl, rfl⟩

/-- C3: for an assignment id of which the authenticated user owns no row
— whether it belongs to another user or does not exist — the detail read
responds 404, and delete and update leave the assignments table
completely unchanged (a no-op). -/
theorem C3_foreign_id_noop_or_404 (db : Database) (id : Nat) (a : String) (body : Body)
    (h : ∀ r ∈ db.assignments, r.assignmentId = id → r.userId ≠ a) :
    (handle db (Request.getAssignmentDetail id) (some a) DbOutcome.ok).response
        = Response.sendStatus 404 (notFoundMsg id) ∧
    (handle db (Request.getAssignmentDelete id) (some a) DbOutcome.ok).db = db ∧
    (handle db (Request.postAssignmentUpdate id body) (some a) DbOutcome.ok).db = db := by
  have hdetail : read_assignment_detail db id a = [] := by
    have hfil : (joinPairs db).filter
        (fun p => p.1.assignmentId == id && p.1.userId == a) = [] := by
      refine List.filter_eq_nil_iff.mpr (fun p hp => ?_)
      have h1 := fst_mem_of_mem_joinPairs hp
      simp only [Bool.and_eq_true, beq_iff_eq, not_and]
      exact fun hid => h p.1 h1 hid
    simp only [read_assignment_detail, hfil, List.map_nil]
  have hdel : delete_assignment db id a = db := by
    have hfil : db.assignments.filter
        (fun r => !(r.assignmentId == id && r.userId == a)) = db.assignments := by
      refine List.filter_eq_self.mpr (fun r hr => ?_)
      by_cases hid : r.assignmentId = id
      · have hne := h r hr hid
        simp [hid, hne]
      · simp [hid]
    simp only [delete_assignment, hfil]
  have hupd : update_assignment db id a body = db := by
    have hmap : db.assignments.map (fun r =>
        if r.assignmentId == id && r.userId == a then applyUpdate body r else r)
          = db.assignments := by
      have := List.map_congr_left (l := db.assignments)
        (f := fun r => if r.assignmentId == id && r.userId == a then applyUpdate body r else r)
        (g := fun r => r) ?_
      · simpa using this
      · intro r hr
        by_cases hid : r.assignmentId = id
        · have hne := h r hr hid
          simp [hid, hne]
        · simp [hid]
    simp only [update_assignment, hmap]
  refine ⟨by simp [handle, hdetail], by simp [handle, hdel], by simp [handle, hupd]⟩

/-- C3 (witness): the theorem applied to user `bob` requesting the id of
the assignment of `alice` in the fixture database. -/
theorem C3_foreign_id_noop_or_404_witness :
    (∀ r ∈ exDb.assignments, r.assignmentId = 1 → r.userId ≠ "bob") ∧
    ((handle exDb (Request.getAssignmentDetail 1) (some "bob") DbOutcome.ok).response
        = Response.sendStatus 404 (notFoundMsg 1) ∧
     (handle exDb (Request.getAssignmentDelete 1) (some "bob") DbOutcome.ok).db = exDb ∧
     (handle exDb (Request.postAssignmentUpdate 1 exBody) (some "bob") DbOutcome.ok).db
        = exDb) :=
  ⟨by decide, C3_foreign_id_noop_or_404 exDb 1 "bob" exBody (by decide)⟩

/-- A database fixture with no assignments yet, for the create-then-read
scenario. -/
def exDb0 : Database := ⟨[], [exSubject], 1⟩

/-- C4 (counterexample): creating an assignment with a submitted
description (`exBody.description = some "my notes"`) and reading the new
id back renders a record whose description is `none` — the create
statement never inserts a description — so the read-back record does not
match the submitted fields in the description field. -/
theorem C4_counterexample :
    (handle exDb0 (Request.postAssignments exBody) (some "alice") DbOutcome.ok).response
      = Response.redirect "/assignments/1" ∧
    (handle (handle exDb0 (Request.postAssignments exBody) (some "alice") DbOutcome.ok).db
        (Request.getAssignmentDetail 1) (some "alice") DbOutcome.ok).response
      = Response.render (View.detail
          ⟨1, "Essay", "2", "Math", 1, dateFormatExtended "2024-06-01", "2024-06-01", none⟩) ∧
    (none : Option String) ≠ exBody.description := by
  refine ⟨rfl, by decide, by decide⟩

/-- C4 (amended): for every authenticated user and create body, if the
AUTO_INCREMENT id is fresh and the subject id of the body exists in the
subjects table, then creating via POST `/assignments` redirects to the
new id, and reading that id back renders a record whose title, priority,
subject id and due date match the submitted fields — while its
description is NULL, the create statement not inserting one. -/
theorem C4_amended (db : Database) (a : String) (body : Body)
    (hfresh : ∀ r ∈ db.assignments, r.assignmentId < db.nextAssignmentId)
    (hsubj : ∃ s ∈ db.subjects, s.subjectId = body.subject) :
    (handle db (Request.postAssignments body) (some a) DbOutcome.ok).response
      = Response.redirect ("/assignments/" ++ toString db.nextAssignmentId) ∧
    ∃ hw : DetailRow,
      (handle (handle db (Request.postAssignments body) (some a) DbOutcome.ok).db
          (Request.getAssignmentDetail db.nextAssignmentId) (some a) DbOutcome.ok).response
        = Response.render (View.detail hw) ∧
      hw.title = body.title ∧ hw.priority = body.priority ∧
      hw.subjectId = body.subject ∧ hw.dueDateYMD = body.dueDate ∧
      hw.description = none := by
  obtain ⟨s, hs, hsid⟩ := hsubj
  have hmem : s ∈ db.subjects.filter (fun s2 => s2.subjectId == body.subject) :=
    List.mem_filter.mpr ⟨hs, by simp [hsid]⟩
  cases hflt : db.subjects.filter (fun s2 => s2.subjectId == body.subject) with
  | nil => rw [hflt] at hmem; cases hmem
  | cons s0 rest =>
      have hpairs : joinPairs (create_assignment db body a)
          = db.assignments.flatMap (pairsFor db.subjects)
            ++ pairsFor db.subjects (newAssignment db body a) := by
        simp [joinPairs, create_assignment, List.flatMap_append]
      have hold : (db.assignments.flatMap (pairsFor db.subjects)).filter
          (fun p => p.1.assignmentId == db.nextAssignmentId && p.1.userId == a) = [] := by
        refine List.filter_eq_nil_iff.mpr (fun p hp => ?_)
        rw [List.mem_flatMap] at hp
        obtain ⟨r, hr, hpr⟩ := hp
        obtain ⟨h1, -, -⟩ := mem_pairsFor hpr
        have hlt := hfresh r hr
        simp only [Bool.and_eq_true, beq_iff_eq, not_and, h1]
        exact fun hid _ => Nat.ne_of_lt hlt hid
      have hnew : (pairsFor db.subjects (newAssignment db body a)).filter
          (fun p => p.1.assignmentId == db.nextAssignmentId && p.1.userId == a)
          = pairsFor db.subjects (newAssignment db body a) :=
        filter_pairsFor_of_true
          (q := fun r => r.assignmentId == db.nextAssignmentId && r.userId == a)
          (by simp [newAssignment])
      have hdetval : read_assignment_detail (create_assignment db body a)
            db.nextAssignmentId a
          = detailRowOf s0 (newAssignment db body a)
            :: rest.map (fun s2 => detailRowOf s2 (newAssignment db body a)) := by
        simp only [read_assignment_detail, hpairs, List.filter_append, hold, hnew,
          List.nil_append]
        simp only [pairsFor, newAssignment]
        rw [hflt]
        simp [List.map_map, Function.comp, newAssignment]
      refine ⟨rfl, detailRowOf s0 (newAssignment db body a), ?_, rfl, rfl, rfl, rfl, rfl⟩
      have hstep : (handle db (Request.postAssignments body) (some a) DbOutcome.ok).db
          = create_assignment db body a := rfl
      rw [hstep]
      simp [handle, hdetval]

/-- C4 (witness): the amended theorem applied to a concrete create body
against the empty fixture database. -/
theorem C4_amended_witness :
    (∀ r ∈ exDb0.assignments, r.assignmentId < exDb0.nextAssignmentId) ∧
    (∃ s ∈ exDb0.subjects, s.subjectId = exBody.subject) ∧
    ((handle exDb0 (Request.postAssignments exBody) (some "alice") DbOutcome.ok).response
      = Response.redirect ("/assignments/" ++ toString exDb0.nextAssignmentId) ∧
    ∃ hw : DetailRow,
      (handle (handle exDb0 (Request.postAssignments exBody) (some "alice") DbOutcome.ok).db
          (Request.getAssignmentDetail exDb0.nextAssignmentId) (some "alice")
          DbOutcome.ok).response
        = Response.render (View.detail hw) ∧
      hw.title = exBody.title ∧ hw.priority = exBody.priority ∧
      hw.subjectId = exBody.subject ∧ hw.dueDateYMD = exBody.dueDate ∧
      hw.description = none) :=
  ⟨by decide, by decide, C4_amended exDb0 "alice" exBody (by decide) (by decide)⟩

/-- The rows of the assignments table owned by one subject claim. -/
def ownedRows (db : Database) (sub : String) : List AssignmentRow :=
  db.assignments.filter (fun r => r.userId == sub)

theorem read_assignments_all_eq_of_agree {db1 db2 : Database} {a : String}
    (hsub : db1.subjects = db2.subjects) (hown : ownedRows db1 a = ownedRows db2 a) :
    read_assignments_all db1 a = read_assignments_all db2 a := by
  unfold read_assignments_all joinPairs
  rw [filter_fst_flatMap db1.assignments db1.subjects (fun r => r.userId == a),
      filter_fst_flatMap db2.assignments db2.subjects (fun r => r.userId == a), hsub]
  have h2 : db1.assignments.filter (fun r => r.userId == a)
      = db2.assignments.filter (fun r => r.userId == a) := hown
  rw [h2]

theorem read_assignment_detail_eq_of_agree {db1 db2 : Database} (id : Nat) {a : String}
    (hsub : db1.subjects = db2.subjects) (hown : ownedRows db1 a = ownedRows db2 a) :
    read_assignment_detail db1 id a = read_assignment_detail db2 id a := by
  unfold read_assignment_detail joinPairs
  rw [filter_fst_flatMap db1.assignments db1.subjects
        (fun r => r.assignmentId == id && r.userId == a),
      filter_fst_flatMap db2.assignments db2.subjects
        (fun r => r.assignmentId == id && r.userId == a), hsub]
  have h2 : db1.assignments.filter (fun r => r.assignmentId == id && r.userId == a)
      = db2.assignments.filter (fun r => r.assignmentId == id && r.userId == a) := by
    rw [← List.filter_filter, ← List.filter_filter]
    have h3 : db1.assignments.filter (fun r => r.userId == a)
        = db2.assignments.filter (fun r => r.userId == a) := hown
    rw [h3]
  rw [h2]

theorem ownedRows_delete_other {db : Database} {id : Nat} {a b : String} (hab : a ≠ b) :
    ownedRows (delete_assignment db id a) b = ownedRows db b := by
  have hba : ¬(b = a) := fun h => hab h.symm
  simp only [ownedRows, delete_assignment]
  rw [List.filter_filter]
  refine List.filter_congr (fun r hr => ?_)
  by_cases hb : r.userId = b
  · simp [hb, hba]
  · have hnb : (r.userId == b) = false := beq_eq_false_iff_ne.mpr hb
    simp [hnb]

theorem filter_map_fixed (t : List AssignmentRow) (f : AssignmentRow → AssignmentRow)
    (p : AssignmentRow → Bool)
    (hkeep : ∀ r, p (f r) = p r)
    (hfix : ∀ r, p r = true → f r = r) :
    (t.map f).filter p = t.filter p := by
  induction t with
  | nil => rfl
  | cons r t ih =>
      rw [List.map_cons, List.filter_cons, List.filter_cons, hkeep r]
      cases hp : p r
      · simpa using ih
      · rw [hfix r hp]
        simpa using ih

theorem ownedRows_update_other {db : Database} {id : Nat} {a b : String} {body : Body}
    (hab : a ≠ b) :
    ownedRows (update_assignment db id a body) b = ownedRows db b := by
  simp only [ownedRows, update_assignment]
  refine filter_map_fixed _ _ _ (fun r => ?_) (fun r hr => ?_)
  · by_cases hc : (r.assignmentId == id && r.userId == a) = true
    · rw [if_pos hc]
      rfl
    · rw [if_neg hc]
  · have hbeq : r.userId = b := by simpa using hr
    have hna : (r.userId == a) = false := by
      rw [beq_eq_false_iff_ne, hbeq]
      exact fun h => hab h.symm
    rw [if_neg (by simp [hna])]

theorem ownedRows_create_other {db : Database} {a b : String} {body : Body} (hab : a ≠ b) :
    ownedRows (create_assignment db body a) b = ownedRows db b := by
  simp only [ownedRows, create_assignment, List.filter_append]
  have hne : ((newAssignment db body a).userId == b) = false := by
    have h1 : (newAssignment db body a).userId = a := rfl
    rw [h1, beq_eq_false_iff_ne]
    exact hab
  simp [List.filter_cons, hne]

/-- C2: every read and write is scoped by the authenticated subject claim
as owner id.  (i) A request authenticated as `a` never modifies or
deletes a row owned by a different user `b`: the rows of `b` survive the
request unchanged.  (ii) The response `a` sees is independent of the rows
of `b`: two databases agreeing on the subjects table, the AUTO_INCREMENT
counter and the rows `a` owns — while the rows of other users differ
arbitrarily — give `a` identical responses. -/
theorem C2_owner_scoping (req : Request) (out : DbOutcome) (db1 db2 : Database)
    (a b : String) (hab : a ≠ b)
    (hsub : db1.subjects = db2.subjects)
    (hnext : db1.nextAssignmentId = db2.nextAssignmentId)
    (hown : ownedRows db1 a = ownedRows db2 a) :
    ownedRows (handle db1 req (some a) out).db b = ownedRows db1 b ∧
    (handle db1 req (some a) out).response = (handle db2 req (some a) out).response := by
  cases req with
  | getAuthtest => exact ⟨rfl, rfl⟩
  | getProfile => exact ⟨rfl, rfl⟩
  | getHome => exact ⟨rfl, rfl⟩
  | getAssignments =>
      cases out with
      | error e => exact ⟨rfl, rfl⟩
      | ok =>
          refine ⟨rfl, ?_⟩
          simp only [handle]
          rw [read_assignments_all_eq_of_agree hsub hown]
  | getAssignmentDetail id =>
      cases out with
      | error e => exact ⟨rfl, rfl⟩
      | ok =>
          have hagree := read_assignment_detail_eq_of_agree id hsub hown
          constructor
          · cases hres : read_assignment_detail db1 id a <;> simp [handle, hres]
          · simp only [handle]
            rw [← hagree]
            cases read_assignment_detail db1 id a <;> rfl
  | getAssignmentDelete id =>
      cases out with
      | error e => exact ⟨rfl, rfl⟩
      | ok => exact ⟨ownedRows_delete_other hab, rfl⟩
  | postAssignments body =>
      cases out with
      | error e => exact ⟨rfl, rfl⟩
      | ok =>
          refine ⟨ownedRows_create_other hab, ?_⟩
          simp only [handle]
          rw [hnext]
  | postAssignmentUpdate id body =>
      cases out with
      | error e => exact ⟨rfl, rfl⟩
      | ok => exact ⟨ownedRows_update_other hab, rfl⟩

/-- A second fixture database: same subjects, counter and `alice` rows as
`exDb`, but without the row of `bob`. -/
def exDb2 : Database := ⟨[exRowAlice], [exSubject], 3⟩

/-- C2 (witness): the theorem applied to `alice` listing her assignments
over two fixture databases differing exactly in the rows of `bob`. -/
theorem C2_owner_scoping_witness :
    ("alice" : String) ≠ "bob" ∧
    exDb.subjects = exDb2.subjects ∧
    exDb.nextAssignmentId = exDb2.nextAssignmentId ∧
    ownedRows exDb "alice" = ownedRows exDb2 "alice" ∧
    (ownedRows (handle exDb Request.getAssignments (some "alice") DbOutcome.ok).db "bob"
        = ownedRows exDb "bob" ∧
     (handle exDb Request.getAssignments (some "alice") DbOutcome.ok).response
        = (handle exDb2 Request.getAssignments (some "alice") DbOutcome.ok).response) :=
  ⟨by decide, rfl, rfl, by decide,
   C2_owner_scoping Request.getAssignments DbOutcome.ok exDb exDb2 "alice" "bob"
     (by decide) rfl rfl (by decide)⟩

instance : IsTotal ListRow hwOrder :=
  ⟨fun x y => Nat.le_total y.assignmentId x.assignmentId⟩

instance : IsTrans ListRow hwOrder :=
  ⟨fun _ _ _ h1 h2 => Nat.le_trans h2 h1⟩

theorem nodup_of_length_le_one {α : Type} : ∀ {l : List α}, l.length ≤ 1 → l.Nodup
  | [], _ => List.nodup_nil
  | [x], _ => List.nodup_singleton x
  | _ :: _ :: _, h => by simp [List.length_cons] at h

theorem length_filter_subject_le_one {subs : List Subject}
    (hs : (subs.map (fun s => s.subjectId)).Nodup) (k : Nat) :
    (subs.filter (fun s => s.subjectId == k)).length ≤ 1 := by
  induction subs with
  | nil => simp
  | cons s t ih =>
      rw [List.map_cons, List.nodup_cons] at hs
      obtain ⟨hnotin, ht⟩ := hs
      rw [List.filter_cons]
      by_cases hk : s.subjectId = k
      · have hnil : t.filter (fun s2 => s2.subjectId == k) = [] := by
          refine List.filter_eq_nil_iff.mpr (fun s2 hs2 => ?_)
          simp only [beq_iff_eq]
          intro h2
          apply hnotin
          rw [hk, ← h2]
          exact List.mem_map_of_mem _ hs2
        simp [hk, hnil]
      · have hkf : (s.subjectId == k) = false := beq_eq_false_iff_ne.mpr hk
        simp only [hkf]
        exact ih ht

theorem key_of_mem_pairsFor {subs : List Subject} {r : AssignmentRow} {x : Nat}
    (hx : x ∈ (pairsFor subs r).map (fun p => p.1.assignmentId)) : x = r.assignmentId := by
  rw [List.mem_map] at hx
  obtain ⟨p, hp, rfl⟩ := hx
  rw [(mem_pairsFor hp).1]

theorem mem_key_flatMap_pairsFor {subs : List Subject} {t : List AssignmentRow} {x : Nat}
    (hx : x ∈ (t.flatMap (pairsFor subs)).map (fun p => p.1.assignmentId)) :
    x ∈ t.map (fun r => r.assignmentId) := by
  rw [List.mem_map] at hx
  obtain ⟨p, hp, rfl⟩ := hx
  rw [List.mem_flatMap] at hp
  obtain ⟨r, hr, hpr⟩ := hp
  rw [(mem_pairsFor hpr).1]
  exact List.mem_map_of_mem _ hr

theorem nodup_ids_flatMap_pairsFor (subs : List Subject) (l : List AssignmentRow)
    (hids : (l.map (fun r => r.assignmentId)).Nodup)
    (hsubs : (subs.map (fun s => s.subjectId)).Nodup) :
    ((l.flatMap (pairsFor subs)).map (fun p => p.1.assignmentId)).Nodup := by
  induction l with
  | nil => simp
  | cons r t ih =>
      rw [List.map_cons, List.nodup_cons] at hids
      obtain ⟨hnotin, ht⟩ := hids
      rw [List.flatMap_cons, List.map_append]
      refine List.Nodup.append ?_ (ih ht) ?_
      · refine nodup_of_length_le_one ?_
        rw [List.length_map, pairsFor, List.length_map]
        exact length_filter_subject_le_one hsubs r.subjectId
      · intro x hx hx2
        have h1 := key_of_mem_pairsFor hx
        have h2 := mem_key_flatMap_pairsFor hx2
        rw [h1] at h2
        exact hnotin h2

theorem nodup_ids_read_assignments_all {db : Database} {a : String}
    (hids : (db.assignments.map (fun r => r.assignmentId)).Nodup)
    (hsubs : (db.subjects.map (fun s => s.subjectId)).Nodup) :
    ((read_assignments_all db a).map (fun x => x.assignmentId)).Nodup := by
  have hperm : (read_assignments_all db a).Perm
      (((joinPairs db).filter (fun p => p.1.userId == a)).map (fun p => listRowOf p.2 p.1)) :=
    List.perm_insertionSort _ _
  rw [List.Perm.nodup_iff (List.Perm.map _ hperm)]
  rw [List.map_map]
  have hcomp : ((fun x : ListRow => x.assignmentId)
      ∘ (fun p : AssignmentRow × Subject => listRowOf p.2 p.1)) = fun p => p.1.assignmentId :=
    rfl
  rw [hcomp]
  refine List.Nodup.sublist (List.Sublist.map _ (List.filter_sublist _)) ?_
  exact nodup_ids_flatMap_pairsFor db.subjects db.assignments hids hsubs

/-- C8: for every authenticated user, barring a database error, the list
route renders exactly the assignments of that user — a row appears in `hwlist`
precisely for each pair of an owned assignment row and its subject row —
and, when assignment ids and subject ids are table-unique, in strictly
descending `assignmentId` order (most recently inserted first). -/
theorem C8_list_exactly_user_desc (db : Database) (a : String)
    (hids : (db.assignments.map (fun r => r.assignmentId)).Nodup)
    (hsubs : (db.subjects.map (fun s => s.subjectId)).Nodup) :
    (handle db Request.getAssignments (some a) DbOutcome.ok).response
        = Response.render (View.assignments (read_assignments_all db a)) ∧
    (∀ x, x ∈ read_assignments_all db a ↔
      ∃ r ∈ db.assignments, ∃ s ∈ db.subjects,
        r.userId = a ∧ s.subjectId = r.subjectId ∧ x = listRowOf s r) ∧
    (read_assignments_all db a).Pairwise (fun x y => y.assignmentId < x.assignmentId) := by
  refine ⟨rfl, ?_, ?_⟩
  · intro x
    rw [read_assignments_all,
        List.Perm.mem_iff (List.perm_insertionSort hwOrder _)]
    constructor
    · intro hx
      rw [List.mem_map] at hx
      obtain ⟨p, hp, rfl⟩ := hx
      rw [List.mem_filter] at hp
      obtain ⟨hpj, hpu⟩ := hp
      rw [joinPairs, List.mem_flatMap] at hpj
      obtain ⟨r, hr, hpr⟩ := hpj
      obtain ⟨h1, h2, h3⟩ := mem_pairsFor hpr
      rw [beq_iff_eq] at hpu
      exact ⟨p.1, h1 ▸ hr, p.2, h2, hpu, h1 ▸ h3, rfl⟩
    · rintro ⟨r, hr, s, hs, hua, hsid, rfl⟩
      rw [List.mem_map]
      refine ⟨(r, s), ?_, rfl⟩
      rw [List.mem_filter]
      refine ⟨?_, by simpa using hua⟩
      rw [joinPairs, List.mem_flatMap]
      refine ⟨r, hr, ?_⟩
      rw [pairsFor, List.mem_map]
      exact ⟨s, List.mem_filter.mpr ⟨hs, by simpa using hsid⟩, rfl⟩
  · have hsorted : (read_assignments_all db a).Sorted hwOrder :=
      List.sorted_insertionSort hwOrder _
    have hnodup := nodup_ids_read_assignments_all (a := a) hids hsubs
    have hne : (read_assignments_all db a).Pairwise
        (fun x y => x.assignmentId ≠ y.assignmentId) := List.pairwise_map.mp hnodup
    refine (List.Pairwise.and hsorted hne).imp ?_
    intro x y h
    exact Nat.lt_of_le_of_ne h.1 (fun heq => h.2 heq.symm)

/-- C8 (witness): the theorem applied to `alice` against the fixture
database with unique assignment and subject ids. -/
theorem C8_list_exactly_user_desc_witness :
    (exDb.assignments.map (fun r => r.assignmentId)).Nodup ∧
    (exDb.subjects.map (fun s => s.subjectId)).Nodup ∧
    ((handle exDb Request.getAssignments (some "alice") DbOutcome.ok).response
        = Response.render (View.assignments (read_assignments_all exDb "alice")) ∧
    (∀ x, x ∈ read_assignments_all exDb "alice" ↔
      ∃ r ∈ exDb.assignments, ∃ s ∈ exDb.subjects,
        r.userId = "alice" ∧ s.subjectId = r.subjectId ∧ x = listRowOf s r) ∧
    (read_assignments_all exDb "alice").Pairwise
      (fun x y => y.assignmentId < x.assignmentId)) :=
  ⟨by decide, by decide, C8_list_exactly_user_desc exDb "alice" (by decide) (by decide)⟩
